import Mathlib

/-!
Verification of the simulation core of a perceptual-motion test
(two patches of moving dots, adaptive coherence staircase).

Numbers are embedded as rationals (`ℚ`): the TypeScript source computes with
IEEE doubles, and every claim checked here is settled either symbolically or
at inputs where the double computation is exact.  `Math.sqrt` is embedded as
`Rat.sqrt`, which agrees with the mathematical square root exactly on perfect
rational squares; every theorem whose truth depends on the value of a square
root either evaluates it on a perfect square or carries an explicit exactness
hypothesis (`d * d = …`).
-/

namespace MotionSpec

/-! ## Coherence controller (MotionTutorialTrialWorld.updateCoherency and
FormWorld.updateCoherency) -/

/-- Embedding of `MotionTutorialTrialWorld.updateCoherency` (MotionTutorialTrialWorld.ts):
`temp := c * factor`; on a correct answer, if `factor > 1` the level becomes
`c - (temp - c)`, otherwise `temp`; on an incorrect answer, if `factor > 1` the
level becomes `temp`, otherwise `c - (temp - c)`, and the incorrect branch then
clamps the level to at most 100.  The state field `coherencePercent` is passed
and returned explicitly. -/
def mtUpdateCoherency (factor : ℚ) (isCorrectAnswer : Bool) (c : ℚ) : ℚ :=
  let temp := c * factor
  if isCorrectAnswer then
    if 1 < factor then c - (temp - c) else temp
  else
    let c2 := if 1 < factor then temp else c - (temp - c)
    if 100 < c2 then 100 else c2

/-- Embedding of `FormWorld.updateCoherency` (FormWorld.ts): the correct branch
is identical to the tutorial-world variant; on an incorrect answer the level
becomes `temp = c * factor`, replaced by 100 when `temp > 100`. -/
def formUpdateCoherency (factor : ℚ) (isCorrectAnswer : Bool) (c : ℚ) : ℚ :=
  let temp := c * factor
  if isCorrectAnswer then
    if 1 < factor then c - (temp - c) else temp
  else
    if 100 < temp then 100 else temp

/-- Folding a finite sequence of `updateCoherency` calls (factor, correctness)
over a starting coherence level, for either field variant. -/
def runCoherencySeq (step : ℚ → Bool → ℚ → ℚ) (ops : List (ℚ × Bool)) (c : ℚ) : ℚ :=
  ops.foldl (fun acc p => step p.1 p.2 acc) c

/-- Claim C1 counterexample: the claim says the coherence level never exceeds
100 for any factor > 0.  Starting from `coherencePercent = 100` (inside
[0,100]) and applying `updateCoherency 4 true` twice, both field variants
reach 400 > 100: the correct-answer branch computes `c * (2 - factor)`, which
is not clamped, goes negative for `factor > 2`, and turns positive and large
on the second call. -/
theorem coherency_can_exceed_100 :
    runCoherencySeq mtUpdateCoherency [(4, true), (4, true)] 100 = 400 ∧
    runCoherencySeq formUpdateCoherency [(4, true), (4, true)] 100 = 400 ∧
    (100 : ℚ) < 400 := by
  refine ⟨?_, ?_, by norm_num⟩ <;>
    norm_num [runCoherencySeq, mtUpdateCoherency, formUpdateCoherency]

/-- Auxiliary: one `MotionTutorialTrialWorld.updateCoherency` step keeps the
level in [0, 100] when the factor lies in (0, 2]. -/
theorem mt_step_bounds {f c : ℚ} (b : Bool) (hf0 : 0 < f) (hf2 : f ≤ 2)
    (hc0 : 0 ≤ c) (hc1 : c ≤ 100) :
    0 ≤ mtUpdateCoherency f b c ∧ mtUpdateCoherency f b c ≤ 100 := by
  unfold mtUpdateCoherency
  cases b <;> simp only [Bool.false_eq_true, if_true, if_false, reduceIte] <;>
    split_ifs <;> constructor <;> nlinarith

/-- Auxiliary: one `FormWorld.updateCoherency` step keeps the level in
[0, 100] when the factor lies in (0, 2]. -/
theorem form_step_bounds {f c : ℚ} (b : Bool) (hf0 : 0 < f) (hf2 : f ≤ 2)
    (hc0 : 0 ≤ c) (hc1 : c ≤ 100) :
    0 ≤ formUpdateCoherency f b c ∧ formUpdateCoherency f b c ≤ 100 := by
  unfold formUpdateCoherency
  cases b <;> simp only [Bool.false_eq_true, if_true, if_false, reduceIte] <;>
    split_ifs <;> constructor <;> nlinarith

/-- Claim C1 (amended): for every starting `coherencePercent` in [0,100] and
every finite sequence of `updateCoherency (factor, isCorrect)` calls whose
factors all lie in (0, 2], the coherence level stays in [0, 100] — in
particular it never exceeds 100 — in both field variants.  (Every prefix of
such a sequence is itself such a sequence, so the bound holds after each
call.)  The restriction `factor ≤ 2` is forced by `coherency_can_exceed_100`:
a correct answer multiplies the level by `2 - factor`, so factors above 2 can
drive the unclamped correct branch past 100 within two calls. -/
theorem coherency_seq_bounded :
    ∀ (ops : List (ℚ × Bool)), (∀ p ∈ ops, 0 < p.1 ∧ p.1 ≤ 2) →
    ∀ c : ℚ, 0 ≤ c → c ≤ 100 →
      (0 ≤ runCoherencySeq mtUpdateCoherency ops c ∧
        runCoherencySeq mtUpdateCoherency ops c ≤ 100) ∧
      (0 ≤ runCoherencySeq formUpdateCoherency ops c ∧
        runCoherencySeq formUpdateCoherency ops c ≤ 100) := by
  intro ops
  induction ops with
  | nil => intro _ c hc0 hc1; exact ⟨⟨hc0, hc1⟩, ⟨hc0, hc1⟩⟩
  | cons p tl ih =>
    intro hmem c hc0 hc1
    have hp := hmem p (List.mem_cons_self p tl)
    have htl : ∀ q ∈ tl, 0 < q.1 ∧ q.1 ≤ 2 :=
      fun q hq => hmem q (List.mem_cons_of_mem p hq)
    have hmt := mt_step_bounds (f := p.1) (c := c) p.2 hp.1 hp.2 hc0 hc1
    have hform := form_step_bounds (f := p.1) (c := c) p.2 hp.1 hp.2 hc0 hc1
    have h1 := ih htl (mtUpdateCoherency p.1 p.2 c) hmt.1 hmt.2
    have h2 := ih htl (formUpdateCoherency p.1 p.2 c) hform.1 hform.2
    exact ⟨h1.1, h2.2⟩

/-- Witness for `coherency_seq_bounded`: the concrete sequence
[(1/2, correct), (2, incorrect)] from level 50 stays within [0, 100] in both
variants. -/
theorem coherency_seq_bounded_witness :
    (0 ≤ runCoherencySeq mtUpdateCoherency [(1/2, true), (2, false)] 50 ∧
      runCoherencySeq mtUpdateCoherency [(1/2, true), (2, false)] 50 ≤ 100) ∧
    (0 ≤ runCoherencySeq formUpdateCoherency [(1/2, true), (2, false)] 50 ∧
      runCoherencySeq formUpdateCoherency [(1/2, true), (2, false)] 50 ≤ 100) :=
  coherency_seq_bounded [(1/2, true), (2, false)]
    (by intro p hp; fin_cases hp <;> norm_num)
    50 (by norm_num) (by norm_num)

/-- Claim C2: in both field variants, `updateCoherency factor true` sets the
level to `c * factor` when `factor ≤ 1` and to `c - (c * factor - c)` when
`factor > 1`; in particular from level 50, a correct answer with factor 1/2
yields 25. -/
theorem updateCoherency_correct_branch :
    (∀ c f : ℚ, mtUpdateCoherency f true c =
      if f ≤ 1 then c * f else c - (c * f - c)) ∧
    (∀ c f : ℚ, formUpdateCoherency f true c =
      if f ≤ 1 then c * f else c - (c * f - c)) ∧
    mtUpdateCoherency (1/2) true 50 = 25 ∧
    formUpdateCoherency (1/2) true 50 = 25 := by
  refine ⟨?_, ?_, by norm_num [mtUpdateCoherency], by norm_num [formUpdateCoherency]⟩ <;>
  · intro c f
    by_cases h : f ≤ 1
    · simp [mtUpdateCoherency, formUpdateCoherency, h, not_lt.mpr h]
    · simp [mtUpdateCoherency, formUpdateCoherency, h, not_le.mp h]

/-- Claim C3 counterexample: the claim says an incorrect answer always sets the
level to `c * factor` (clamped at 100) in both variants.  In the
MotionTutorialTrialWorld variant with `c = 50` and `factor = 1/2`, the
incorrect branch instead computes `c - (c * factor - c) = 75`, not
`50 * (1/2) = 25`. -/
theorem mt_incorrect_small_factor_cx :
    mtUpdateCoherency (1/2) false 50 = 75 ∧ (75 : ℚ) ≠ 50 * (1/2) := by
  constructor
  · norm_num [mtUpdateCoherency]
  · norm_num

/-- Claim C3 (amended): on an incorrect answer, `FormWorld.updateCoherency`
sets the level to `c * factor` clamped to at most 100, for every factor; the
MotionTutorialTrialWorld variant does the same only for `factor > 1`, while
for `factor ≤ 1` it sets the level to `c - (c * factor - c)` (an increase by
the shortfall) clamped to at most 100.  The two variants genuinely differ in
the incorrect + `factor ≤ 1` branch, as shown by
`mt_incorrect_small_factor_cx`. -/
theorem updateCoherency_incorrect_branch :
    (∀ c f : ℚ, formUpdateCoherency f false c =
      if 100 < c * f then 100 else c * f) ∧
    (∀ c f : ℚ, 1 < f → mtUpdateCoherency f false c =
      if 100 < c * f then 100 else c * f) ∧
    (∀ c f : ℚ, f ≤ 1 → mtUpdateCoherency f false c =
      if 100 < c - (c * f - c) then 100 else c - (c * f - c)) := by
  refine ⟨fun c f => ?_, fun c f hf => ?_, fun c f hf => ?_⟩
  · simp [formUpdateCoherency]
  · simp [mtUpdateCoherency, hf]
  · simp [mtUpdateCoherency, not_lt.mpr hf]

/-- Witness for `updateCoherency_incorrect_branch`: at level 60, an incorrect
answer with factor 2 yields 100 (clamped 120) and with factor 1/2 yields 90 in
the MotionTutorialTrialWorld variant. -/
theorem updateCoherency_incorrect_branch_witness :
    mtUpdateCoherency 2 false 60 = 100 ∧ mtUpdateCoherency (1/2) false 60 = 90 := by
  constructor
  · rw [updateCoherency_incorrect_branch.2.1 60 2 (by norm_num)]; norm_num
  · rw [updateCoherency_incorrect_branch.2.2 60 (1/2) (by norm_num)]; norm_num

/-! ## Dots and collision resolution (Dot.ts, AbstractMotionWorld.ts) -/

/-- Embedding of `Math.sqrt` on the rationals: `Rat.sqrt` agrees with the
mathematical square root exactly on perfect rational squares (the only inputs
on which any theorem below depends on its value). -/
def sqrtQ (q : ℚ) : ℚ := Rat.sqrt q

/-- On a perfect square `q * q`, the embedded square root is exact. -/
theorem sqrtQ_sq (q : ℚ) : sqrtQ (q * q) = |q| := Rat.sqrt_eq q

/-- On a squared rational `q ^ 2`, the embedded square root is exact. -/
theorem sqrtQ_pow (q : ℚ) : sqrtQ (q ^ 2) = |q| := by
  rw [sq]; exact Rat.sqrt_eq q

/-- Modelled from the spec: the `Direction` enumeration (utils/Enums.ts is not
under src/); the code uses the members LEFT, RIGHT and RANDOM, and the spec
asks for an explicit closed enumeration type. -/
inductive Dir
  | LEFT
  | RIGHT
  | RANDOM
deriving DecidableEq, Repr

/-- Embedding of the `Dot` object (Dot.ts): position, velocity, radius, motion
mode flag, direction, and the three timers.  The `id` field models JavaScript
object identity (each constructed dot gets a distinct id), used only for the
self-collision reference-equality check `dot == this`. -/
structure Dot where
  id : ℕ
  x : ℚ
  y : ℚ
  vx : ℚ
  vy : ℚ
  radius : ℚ
  isRandom : Bool
  direction : Dir
  directionTimer : ℚ
  aliveTimer : ℚ
  maxAliveTimer : ℚ
deriving DecidableEq, Repr

/-- Embedding of `Dot.collideWithWall` (Dot.ts lines 94-115): normal from the
wall point to the dot center, distance, minimum translation distance scaled by
`(2 * radius - dist) / dist`, position pushed by HALF the mtd
(`mtd * 1 / 2` in the source), and the x-velocity flipped when the mtd has a
nonzero x-component, the y-velocity otherwise. -/
def collideWithWall (wallX wallY : ℚ) (d : Dot) : Dot :=
  let n : ℚ × ℚ := (d.x - wallX, d.y - wallY)
  let dist : ℚ := sqrtQ (n.1 ^ 2 + n.2 ^ 2)
  let distScalar : ℚ := (2 * d.radius - dist) / dist
  let mtd : ℚ × ℚ := (n.1 * distScalar, n.2 * distScalar)
  let dMoved : Dot := { d with x := d.x + mtd.1 * 1 / 2, y := d.y + mtd.2 * 1 / 2 }
  if mtd.1 ≠ 0 then { dMoved with vx := -dMoved.vx } else { dMoved with vy := -dMoved.vy }

/-- Embedding of `AbstractMotionWorld.checkWallCollisionLeftPatch`
(AbstractMotionWorld.ts): the four inner walls are tested in order
left, right, top, bottom; the first violated wall triggers `collideWithWall`
with the corresponding axis-aligned wall point. -/
def checkWallCollisionLeftPatch (leftMinX leftMaxX patchMinY patchMaxY : ℚ)
    (d : Dot) : Dot :=
  if d.x - d.radius ≤ leftMinX then collideWithWall leftMinX d.y d
  else if leftMaxX ≤ d.x + d.radius then collideWithWall leftMaxX d.y d
  else if d.y - d.radius ≤ patchMinY then collideWithWall d.x patchMinY d
  else if patchMaxY ≤ d.y + d.radius then collideWithWall d.x patchMaxY d
  else d

/-- Embedding of `AbstractMotionWorld.checkWallCollisionRightPatch`: identical
to the left-patch check with the right patch's x-bounds. -/
def checkWallCollisionRightPatch (rightMinX rightMaxX patchMinY patchMaxY : ℚ)
    (d : Dot) : Dot :=
  if d.x - d.radius ≤ rightMinX then collideWithWall rightMinX d.y d
  else if rightMaxX ≤ d.x + d.radius then collideWithWall rightMaxX d.y d
  else if d.y - d.radius ≤ patchMinY then collideWithWall d.x patchMinY d
  else if patchMaxY ≤ d.y + d.radius then collideWithWall d.x patchMaxY d
  else d

/-- Resolving a collision against a vertical wall (wall point `(w, d.y)`, as
passed by the patch checks for the left/right walls): the dot is pushed along
the x-axis by half the minimum translation distance and its x-velocity is
flipped, provided the center is strictly off the wall line and not at distance
exactly `2 * radius` from it. -/
theorem collideWithWall_vertical (w : ℚ) (d : Dot) (hx : d.x ≠ w)
    (hfar : |d.x - w| ≠ 2 * d.radius) :
    collideWithWall w d.y d =
      { d with
        x := d.x + (d.x - w) * ((2 * d.radius - |d.x - w|) / |d.x - w|) * 1 / 2,
        vx := -d.vx } := by
  have h1 : d.x - w ≠ 0 := sub_ne_zero.mpr hx
  have h3 : |d.x - w| ≠ 0 := abs_ne_zero.mpr h1
  have h2 : 2 * d.radius - |d.x - w| ≠ 0 := fun h => hfar (by linarith)
  have hmtd : (d.x - w) * ((2 * d.radius - |d.x - w|) / |d.x - w|) ≠ 0 :=
    mul_ne_zero h1 (div_ne_zero h2 h3)
  simp only [collideWithWall]
  rw [show (d.x - w) ^ 2 + (d.y - d.y) ^ 2 = (d.x - w) ^ 2 by ring, sqrtQ_pow]
  split_ifs
  congr 1 <;> ring

/-- Resolving a collision against a horizontal wall (wall point `(d.x, w)`, as
passed by the patch checks for the top/bottom walls): the dot is pushed along
the y-axis by half the minimum translation distance and its y-velocity is
flipped, provided the center is strictly off the wall line. -/
theorem collideWithWall_horizontal (w : ℚ) (d : Dot) (hy : d.y ≠ w) :
    collideWithWall d.x w d =
      { d with
        y := d.y + (d.y - w) * ((2 * d.radius - |d.y - w|) / |d.y - w|) * 1 / 2,
        vy := -d.vy } := by
  have hz : ¬((d.x - d.x) * ((2 * d.radius - |d.y - w|) / |d.y - w|) ≠ 0) :=
    not_not.mpr (by rw [sub_self, zero_mul])
  simp only [collideWithWall]
  rw [show (d.x - d.x) ^ 2 + (d.y - w) ^ 2 = (d.y - w) ^ 2 by ring, sqrtQ_pow]
  split_ifs
  congr 1 <;> ring

/-- Claim C4 counterexample: the claim says the dot is pushed back by the FULL
penetration.  Take the inner left wall at x = 0 and a Random dot of radius 5
at (3, 50): the wall point is (0, 50), the distance is 3 and the code's
minimum translation distance is `2 * radius - dist = 7`.  The source pushes by
`mtd * 1 / 2`, landing at x = 13/2 — neither `3 + 7 = 10` (full mtd push) nor
`3 + 2 = 5` (full penetration-depth push, `radius - dist = 2`). -/
theorem wall_push_is_half_cx :
    (checkWallCollisionLeftPatch 0 100 0 100
      ⟨0, 3, 50, -1, 2, 5, true, Dir.RANDOM, 0, 100, 100⟩).x = 13/2 ∧
    (13/2 : ℚ) ≠ 3 + 7 ∧ (13/2 : ℚ) ≠ 3 + 2 := by
  refine ⟨?_, by norm_num, by norm_num⟩
  have h := collideWithWall_vertical 0 ⟨0, 3, 50, -1, 2, 5, true, Dir.RANDOM, 0, 100, 100⟩
    (by norm_num) (by norm_num)
  simp only [checkWallCollisionLeftPatch]
  norm_num [h]

/-- Claim C4 (amended): for each of the four walls of the left patch (taken in
the source's left, right, top, bottom priority order), a dot whose bounding
circle crosses that wall is pushed back along the normal from the wall point
to the dot center by HALF the minimum translation distance
`(2 * radius - dist)` — not the full penetration — and exactly the velocity
component perpendicular to the wall is inverted (x for left/right walls, y for
top/bottom walls) while the parallel component, the parallel position
coordinate, and all other fields are unchanged.  Degenerate placements (center
exactly on the wall line, or exactly `2 * radius` away from a vertical wall
point) are excluded: there the double code divides by zero or flips the other
component. -/
theorem wall_collision_resolution (b1 b2 b3 b4 : ℚ) (d : Dot) :
    (d.x - d.radius ≤ b1 → d.x ≠ b1 → |d.x - b1| ≠ 2 * d.radius →
      checkWallCollisionLeftPatch b1 b2 b3 b4 d =
        { d with
          x := d.x + (d.x - b1) * ((2 * d.radius - |d.x - b1|) / |d.x - b1|) * 1 / 2,
          vx := -d.vx }) ∧
    (¬(d.x - d.radius ≤ b1) → b2 ≤ d.x + d.radius → d.x ≠ b2 →
      |d.x - b2| ≠ 2 * d.radius →
      checkWallCollisionLeftPatch b1 b2 b3 b4 d =
        { d with
          x := d.x + (d.x - b2) * ((2 * d.radius - |d.x - b2|) / |d.x - b2|) * 1 / 2,
          vx := -d.vx }) ∧
    (¬(d.x - d.radius ≤ b1) → ¬(b2 ≤ d.x + d.radius) → d.y - d.radius ≤ b3 →
      d.y ≠ b3 →
      checkWallCollisionLeftPatch b1 b2 b3 b4 d =
        { d with
          y := d.y + (d.y - b3) * ((2 * d.radius - |d.y - b3|) / |d.y - b3|) * 1 / 2,
          vy := -d.vy }) ∧
    (¬(d.x - d.radius ≤ b1) → ¬(b2 ≤ d.x + d.radius) → ¬(d.y - d.radius ≤ b3) →
      b4 ≤ d.y + d.radius → d.y ≠ b4 →
      checkWallCollisionLeftPatch b1 b2 b3 b4 d =
        { d with
          y := d.y + (d.y - b4) * ((2 * d.radius - |d.y - b4|) / |d.y - b4|) * 1 / 2,
          vy := -d.vy }) := by
  refine ⟨fun h1 hx hf => ?_, fun h1 h2 hx hf => ?_, fun h1 h2 h3 hy => ?_,
    fun h1 h2 h3 h4 hy => ?_⟩
  · rw [checkWallCollisionLeftPatch, if_pos h1, collideWithWall_vertical b1 d hx hf]
  · rw [checkWallCollisionLeftPatch, if_neg h1, if_pos h2,
      collideWithWall_vertical b2 d hx hf]
  · rw [checkWallCollisionLeftPatch, if_neg h1, if_neg h2, if_pos h3,
      collideWithWall_horizontal b3 d hy]
  · rw [checkWallCollisionLeftPatch, if_neg h1, if_neg h2, if_neg h3, if_pos h4,
      collideWithWall_horizontal b4 d hy]

/-- Witness for `wall_collision_resolution`: the concrete Random dot of radius
5 at (3, 50) with velocity (-1, 2) against the left wall x = 0 ends at
x = 13/2 with velocity (1, 2). -/
theorem wall_collision_resolution_witness :
    checkWallCollisionLeftPatch 0 100 0 100
        ⟨0, 3, 50, -1, 2, 5, true, Dir.RANDOM, 0, 100, 100⟩ =
      { (⟨0, 3, 50, -1, 2, 5, true, Dir.RANDOM, 0, 100, 100⟩ : Dot) with
        x := 3 + (3 - 0) * ((2 * 5 - |(3 : ℚ) - 0|) / |(3 : ℚ) - 0|) * 1 / 2,
        vx := -(-1) } :=
  (wall_collision_resolution 0 100 0 100
    ⟨0, 3, 50, -1, 2, 5, true, Dir.RANDOM, 0, 100, 100⟩).1
    (by norm_num) (by norm_num) (by norm_num)

/-! ## Dot-dot collision (Dot.collideWithDot, Dot.ts lines 122-187) -/

/-- Normal vector from the other dot's center to this dot's center
(`n = (this.x - dot.x, this.y - dot.y)` in the source). -/
def dotN (d1 d2 : Dot) : ℚ × ℚ := (d1.x - d2.x, d1.y - d2.y)

/-- Center distance (`Math.sqrt(n[0]**2 + n[1]**2)` in the source). -/
def dotDist (d1 d2 : Dot) : ℚ := sqrtQ ((dotN d1 d2).1 ^ 2 + (dotN d1 d2).2 ^ 2)

/-- Minimum translation distance vector
(`mtd = n * (2 * this.radius - dist) / dist` in the source). -/
def dotMtd (d1 d2 : Dot) : ℚ × ℚ :=
  ((dotN d1 d2).1 * ((2 * d1.radius - dotDist d1 d2) / dotDist d1 d2),
   (dotN d1 d2).2 * ((2 * d1.radius - dotDist d1 d2) / dotDist d1 d2))

/-- Unit normal vector (`un = n * 1 / dist` in the source). -/
def dotUn (d1 d2 : Dot) : ℚ × ℚ :=
  ((dotN d1 d2).1 * 1 / dotDist d1 d2, (dotN d1 d2).2 * 1 / dotDist d1 d2)

/-- Unit tangent vector (`ut = (-un[1], un[0])` in the source). -/
def dotUt (d1 d2 : Dot) : ℚ × ℚ := (-(dotUn d1 d2).2, (dotUn d1 d2).1)

/-- Projection of the first dot's velocity onto the unit normal (`v1n`). -/
def dotV1n (d1 d2 : Dot) : ℚ :=
  (dotUn d1 d2).1 * d1.vx + (dotUn d1 d2).2 * d1.vy

/-- Projection of the first dot's velocity onto the unit tangent (`v1t`). -/
def dotV1t (d1 d2 : Dot) : ℚ :=
  (dotUt d1 d2).1 * d1.vx + (dotUt d1 d2).2 * d1.vy

/-- Projection of the second dot's velocity onto the unit normal (`v2n`). -/
def dotV2n (d1 d2 : Dot) : ℚ :=
  (dotUn d1 d2).1 * d2.vx + (dotUn d1 d2).2 * d2.vy

/-- Projection of the second dot's velocity onto the unit tangent (`v2t`). -/
def dotV2t (d1 d2 : Dot) : ℚ :=
  (dotUt d1 d2).1 * d2.vx + (dotUt d1 d2).2 * d2.vy

/-- New velocity of the first dot: normal component exchanged
(`v1nPrime = v2n`), tangential component kept (`v1t`). -/
def dotNewV1 (d1 d2 : Dot) : ℚ × ℚ :=
  ((dotUn d1 d2).1 * dotV2n d1 d2 + (dotUt d1 d2).1 * dotV1t d1 d2,
   (dotUn d1 d2).2 * dotV2n d1 d2 + (dotUt d1 d2).2 * dotV1t d1 d2)

/-- New velocity of the second dot: normal component exchanged
(`v2nPrime = v1n`), tangential component kept (`v2t`). -/
def dotNewV2 (d1 d2 : Dot) : ℚ × ℚ :=
  ((dotUn d1 d2).1 * dotV1n d1 d2 + (dotUt d1 d2).1 * dotV2t d1 d2,
   (dotUn d1 d2).2 * dotV1n d1 d2 + (dotUt d1 d2).2 * dotV2t d1 d2)

/-- Embedding of `Dot.collideWithDot` (Dot.ts lines 122-187), returning the
updated pair `(this, dot)`.  Reference equality `dot == this` is modelled by
id equality; the early return fires when `dist > 2 * this.radius`; then the
three mode branches: Random vs Fixed moves and updates only `this` by the
full mtd, Fixed vs Random moves and updates only `dot`, and equal modes move
each dot by half the mtd and update both velocities. -/
def collideWithDot (d1 d2 : Dot) : Dot × Dot :=
  if d2.id = d1.id then (d1, d2)
  else if 2 * d1.radius < dotDist d1 d2 then (d1, d2)
  else if d1.isRandom = true ∧ d2.isRandom = false then
    ({ d1 with x := d1.x + (dotMtd d1 d2).1, y := d1.y + (dotMtd d1 d2).2,
               vx := (dotNewV1 d1 d2).1, vy := (dotNewV1 d1 d2).2 }, d2)
  else if d1.isRandom = false ∧ d2.isRandom = true then
    (d1, { d2 with x := d2.x - (dotMtd d1 d2).1, y := d2.y - (dotMtd d1 d2).2,
                   vx := (dotNewV2 d1 d2).1, vy := (dotNewV2 d1 d2).2 })
  else
    ({ d1 with x := d1.x + (dotMtd d1 d2).1 * 1 / 2, y := d1.y + (dotMtd d1 d2).2 * 1 / 2,
               vx := (dotNewV1 d1 d2).1, vy := (dotNewV1 d1 d2).2 },
     { d2 with x := d2.x - (dotMtd d1 d2).1 * 1 / 2, y := d2.y - (dotMtd d1 d2).2 * 1 / 2,
               vx := (dotNewV2 d1 d2).1, vy := (dotNewV2 d1 d2).2 })

/-- Projection of an arbitrary dot's velocity onto the collision normal of
the pair `(d1, d2)` — the measurement used to state the exchange property. -/
def projN (d1 d2 d : Dot) : ℚ := (dotUn d1 d2).1 * d.vx + (dotUn d1 d2).2 * d.vy

/-- Projection of an arbitrary dot's velocity onto the collision tangent of
the pair `(d1, d2)`. -/
def projT (d1 d2 d : Dot) : ℚ := (dotUt d1 d2).1 * d.vx + (dotUt d1 d2).2 * d.vy

/-- When the square of the center distance is computed exactly (which holds
whenever the true distance is rational) and is nonzero, the unit normal has
unit length. -/
theorem dotUn_norm_sq (d1 d2 : Dot) (h0 : 0 < dotDist d1 d2)
    (hex : dotDist d1 d2 * dotDist d1 d2 =
      (dotN d1 d2).1 ^ 2 + (dotN d1 d2).2 ^ 2) :
    (dotUn d1 d2).1 ^ 2 + (dotUn d1 d2).2 ^ 2 = 1 := by
  have hne : dotDist d1 d2 ≠ 0 := ne_of_gt h0
  simp only [dotUn]
  field_simp
  linarith [hex]

/-- Centre distance of a horizontally aligned pair is exact. -/
theorem dotDist_horizontal (d1 d2 : Dot) (hy : d1.y = d2.y) :
    dotDist d1 d2 = |d1.x - d2.x| := by
  simp only [dotDist, dotN, hy, sub_self]
  rw [show (d1.x - d2.x) ^ 2 + (0 : ℚ) ^ 2 = (d1.x - d2.x) ^ 2 by ring, sqrtQ_pow]

/-- Concrete Random dot at (0, 0) with velocity (1, 0) and radius 5, for the
spec's two-dot collision scenario. -/
def dotA : Dot := ⟨0, 0, 0, 1, 0, 5, true, Dir.RANDOM, 0, 100, 100⟩

/-- Concrete Random dot at (8, 0) with velocity (-1, 0) and radius 5: center
distance to `dotA` is 8, overlapping by 2. -/
def dotB : Dot := ⟨1, 8, 0, -1, 0, 5, true, Dir.RANDOM, 0, 100, 100⟩

/-- Concrete Fixed-mode dot at (8, 0) with velocity (-1, 0) and radius 5. -/
def dotBfix : Dot := ⟨1, 8, 0, -1, 0, 5, false, Dir.LEFT, 0, 100, 100⟩

/-- Square root of the concrete distance 8 used by the scenario dots. -/
theorem sqrtQ_64 : sqrtQ (64 : ℚ) = 8 := by
  rw [show (64 : ℚ) = 8 * 8 by norm_num, sqrtQ_sq]; norm_num

/-- Branch computation: Random `d1` against Fixed `d2` (guard passed): only
`d1` is moved (full mtd) and updated. -/
theorem collide_branch_mixed1 (d1 d2 : Dot) (hid : d2.id ≠ d1.id)
    (h1 : d1.isRandom = true) (h2 : d2.isRandom = false)
    (hg : ¬(2 * d1.radius < dotDist d1 d2)) :
    collideWithDot d1 d2 =
      ({ d1 with x := d1.x + (dotMtd d1 d2).1, y := d1.y + (dotMtd d1 d2).2,
                 vx := (dotNewV1 d1 d2).1, vy := (dotNewV1 d1 d2).2 }, d2) := by
  rw [collideWithDot, if_neg hid, if_neg hg, if_pos ⟨h1, h2⟩]

/-- Branch computation: Fixed `d1` against Random `d2` (guard passed): only
`d2` is moved (full mtd) and updated. -/
theorem collide_branch_mixed2 (d1 d2 : Dot) (hid : d2.id ≠ d1.id)
    (h1 : d1.isRandom = false) (h2 : d2.isRandom = true)
    (hg : ¬(2 * d1.radius < dotDist d1 d2)) :
    collideWithDot d1 d2 =
      (d1, { d2 with x := d2.x - (dotMtd d1 d2).1, y := d2.y - (dotMtd d1 d2).2,
                     vx := (dotNewV2 d1 d2).1, vy := (dotNewV2 d1 d2).2 }) := by
  rw [collideWithDot, if_neg hid, if_neg hg,
    if_neg (by rintro ⟨a, b⟩; rw [h1] at a; cases a), if_pos ⟨h1, h2⟩]

/-- Branch computation: equal modes (guard passed): both dots are moved by
half the mtd and both velocities updated. -/
theorem collide_branch_same (d1 d2 : Dot) (hid : d2.id ≠ d1.id)
    (hm : d1.isRandom = d2.isRandom)
    (hg : ¬(2 * d1.radius < dotDist d1 d2)) :
    collideWithDot d1 d2 =
      ({ d1 with x := d1.x + (dotMtd d1 d2).1 * 1 / 2,
                 y := d1.y + (dotMtd d1 d2).2 * 1 / 2,
                 vx := (dotNewV1 d1 d2).1, vy := (dotNewV1 d1 d2).2 },
       { d2 with x := d2.x - (dotMtd d1 d2).1 * 1 / 2,
                 y := d2.y - (dotMtd d1 d2).2 * 1 / 2,
                 vx := (dotNewV2 d1 d2).1, vy := (dotNewV2 d1 d2).2 }) := by
  have hc1 : ¬(d1.isRandom = true ∧ d2.isRandom = false) := by
    rw [hm]; rintro ⟨a, b⟩; rw [a] at b; cases b
  have hc2 : ¬(d1.isRandom = false ∧ d2.isRandom = true) := by
    rw [hm]; rintro ⟨a, b⟩; rw [a] at b; cases b
  rw [collideWithDot, if_neg hid, if_neg hg, if_neg hc1, if_neg hc2]

/-- Distance between the concrete scenario dots is 8, and 8 does not exceed
the collision threshold 2 * radius = 10. -/
theorem dotDist_A_Bfix : dotDist dotA dotBfix = 8 := by
  rw [dotDist_horizontal dotA dotBfix rfl]
  norm_num [dotA, dotBfix]

/-- Distance between the two concrete Random scenario dots is 8. -/
theorem dotDist_A_B : dotDist dotA dotB = 8 := by
  rw [dotDist_horizontal dotA dotB rfl]
  norm_num [dotA, dotB]

/-- Distance in the reversed concrete mixed pair is also 8. -/
theorem dotDist_Bfix_A : dotDist dotBfix dotA = 8 := by
  rw [dotDist_horizontal dotBfix dotA rfl]
  norm_num [dotA, dotBfix]

/-- Claim C5 counterexample: the claim quantifies over every pair of distinct
dots whose center distance is at most the sum of the radii, but for a Random
dot colliding with a Fixed dot the source updates only the Random dot: the
Fixed dot `dotBfix` is returned untouched, its normal velocity component
stays 1, while the claimed exchange `v2n' = v1n` would require it to become
-1. -/
theorem collideWithDot_mixed_no_exchange_cx :
    dotDist dotA dotBfix ≤ dotA.radius + dotBfix.radius ∧
    dotBfix.id ≠ dotA.id ∧
    (collideWithDot dotA dotBfix).2 = dotBfix ∧
    projN dotA dotBfix (collideWithDot dotA dotBfix).2 = 1 ∧
    dotV1n dotA dotBfix = -1 ∧ (1 : ℚ) ≠ -1 := by
  have hpair := collide_branch_mixed1 dotA dotBfix (by decide) rfl rfl
    (by rw [dotDist_A_Bfix]; norm_num [dotA])
  refine ⟨by rw [dotDist_A_Bfix]; norm_num [dotA, dotBfix], by decide,
    by rw [hpair], ?_, ?_, by norm_num⟩
  · rw [hpair]
    simp only [projN, dotUn, dotN, dotDist_A_Bfix]
    norm_num [dotA, dotBfix]
  · simp only [dotV1n, dotUn, dotN, dotDist_A_Bfix]
    norm_num [dotA, dotBfix]

/-- Claim C5 (amended): for every pair of DISTINCT SAME-MODE dots of equal
radius whose (positive, exactly computed) center distance is at most the sum
of the radii, `collideWithDot` exchanges the two normal velocity components
(`v1n' = v2n`, `v2n' = v1n`) and leaves both tangential components unchanged;
concretely, the two Random dots of radius 5 at distance 8 with velocities
(1, 0) and (-1, 0) end with velocities (-1, 0) and (1, 0).  The same-mode
restriction is forced by `collideWithDot_mixed_no_exchange_cx`: in mixed-mode
pairs only the Random dot's velocity is updated. -/
theorem collideWithDot_same_mode_exchange :
    (∀ d1 d2 : Dot, d2.id ≠ d1.id → d1.isRandom = d2.isRandom →
      d2.radius = d1.radius → 0 < dotDist d1 d2 →
      dotDist d1 d2 ≤ d1.radius + d2.radius →
      dotDist d1 d2 * dotDist d1 d2 = (dotN d1 d2).1 ^ 2 + (dotN d1 d2).2 ^ 2 →
      projN d1 d2 (collideWithDot d1 d2).1 = dotV2n d1 d2 ∧
      projN d1 d2 (collideWithDot d1 d2).2 = dotV1n d1 d2 ∧
      projT d1 d2 (collideWithDot d1 d2).1 = dotV1t d1 d2 ∧
      projT d1 d2 (collideWithDot d1 d2).2 = dotV2t d1 d2) ∧
    ((collideWithDot dotA dotB).1.vx = -1 ∧ (collideWithDot dotA dotB).1.vy = 0 ∧
     (collideWithDot dotA dotB).2.vx = 1 ∧ (collideWithDot dotA dotB).2.vy = 0) := by
  constructor
  · intro d1 d2 hid hm hr h0 hsum hex
    have hguard : ¬(2 * d1.radius < dotDist d1 d2) := by
      rw [hr] at hsum; exact not_lt.mpr (by linarith)
    have hun := dotUn_norm_sq d1 d2 h0 hex
    rw [collide_branch_same d1 d2 hid hm hguard]
    refine ⟨?_, ?_, ?_, ?_⟩ <;>
      simp only [projN, projT, dotNewV1, dotNewV2, dotUt]
    · linear_combination (dotV2n d1 d2) * hun
    · linear_combination (dotV1n d1 d2) * hun
    · linear_combination (dotV1t d1 d2) * hun
    · linear_combination (dotV2t d1 d2) * hun
  · have hpair := collide_branch_same dotA dotB (by decide) rfl
      (by rw [dotDist_A_B]; norm_num [dotA])
    refine ⟨?_, ?_, ?_, ?_⟩ <;>
      · rw [hpair]
        simp only [dotNewV1, dotNewV2, dotV1n, dotV1t, dotV2n, dotV2t, dotUn,
          dotUt, dotN, dotDist_A_B]
        norm_num [dotA, dotB]

/-- Witness for `collideWithDot_same_mode_exchange`: the same-mode part
instantiated at the two concrete Random dots `dotA` and `dotB` (distance 8,
radii 5). -/
theorem collideWithDot_same_mode_exchange_witness :
    projN dotA dotB (collideWithDot dotA dotB).1 = dotV2n dotA dotB ∧
    projN dotA dotB (collideWithDot dotA dotB).2 = dotV1n dotA dotB ∧
    projT dotA dotB (collideWithDot dotA dotB).1 = dotV1t dotA dotB ∧
    projT dotA dotB (collideWithDot dotA dotB).2 = dotV2t dotA dotB :=
  collideWithDot_same_mode_exchange.1 dotA dotB (by decide) rfl rfl
    (by rw [dotDist_A_B]; norm_num)
    (by rw [dotDist_A_B]; norm_num [dotA, dotB])
    (by rw [dotDist_A_B]; simp only [dotN]; norm_num [dotA, dotB])

/-- Claim C6: mode-asymmetric positional correction in `collideWithDot`.
Random vs Fixed: only the Random dot is displaced (by the full mtd) and only
its velocity is updated, the Fixed dot is returned untouched — in both call
orientations.  Equal modes: each dot is displaced by half the mtd and both
velocities are updated.  Self-collision (same id, modelling reference
equality `dot == this`) returns both dots unchanged before any computation.
The mode branches assume the pair passed the distance guard
`¬(dist > 2 * this.radius)`. -/
theorem collideWithDot_mode_asymmetry :
    (∀ d1 d2 : Dot, d2.id ≠ d1.id → d1.isRandom = true → d2.isRandom = false →
      ¬(2 * d1.radius < dotDist d1 d2) →
      collideWithDot d1 d2 =
        ({ d1 with x := d1.x + (dotMtd d1 d2).1, y := d1.y + (dotMtd d1 d2).2,
                   vx := (dotNewV1 d1 d2).1, vy := (dotNewV1 d1 d2).2 }, d2)) ∧
    (∀ d1 d2 : Dot, d2.id ≠ d1.id → d1.isRandom = false → d2.isRandom = true →
      ¬(2 * d1.radius < dotDist d1 d2) →
      collideWithDot d1 d2 =
        (d1, { d2 with x := d2.x - (dotMtd d1 d2).1, y := d2.y - (dotMtd d1 d2).2,
                       vx := (dotNewV2 d1 d2).1, vy := (dotNewV2 d1 d2).2 })) ∧
    (∀ d1 d2 : Dot, d2.id ≠ d1.id → d1.isRandom = d2.isRandom →
      ¬(2 * d1.radius < dotDist d1 d2) →
      collideWithDot d1 d2 =
        ({ d1 with x := d1.x + (dotMtd d1 d2).1 * 1 / 2,
                   y := d1.y + (dotMtd d1 d2).2 * 1 / 2,
                   vx := (dotNewV1 d1 d2).1, vy := (dotNewV1 d1 d2).2 },
         { d2 with x := d2.x - (dotMtd d1 d2).1 * 1 / 2,
                   y := d2.y - (dotMtd d1 d2).2 * 1 / 2,
                   vx := (dotNewV2 d1 d2).1, vy := (dotNewV2 d1 d2).2 })) ∧
    (∀ d : Dot, collideWithDot d d = (d, d)) :=
  ⟨collide_branch_mixed1, collide_branch_mixed2, collide_branch_same,
    fun d => by rw [collideWithDot, if_pos rfl]⟩

/-- Witness for `collideWithDot_mode_asymmetry`: all four parts instantiated
at the concrete radius-5 dots at distance 8 (`dotA`, `dotB` Random, `dotBfix`
Fixed). -/
theorem collideWithDot_mode_asymmetry_witness :
    (collideWithDot dotA dotBfix =
      ({ dotA with x := dotA.x + (dotMtd dotA dotBfix).1,
                   y := dotA.y + (dotMtd dotA dotBfix).2,
                   vx := (dotNewV1 dotA dotBfix).1,
                   vy := (dotNewV1 dotA dotBfix).2 }, dotBfix)) ∧
    (collideWithDot dotBfix dotA =
      (dotBfix, { dotA with x := dotA.x - (dotMtd dotBfix dotA).1,
                            y := dotA.y - (dotMtd dotBfix dotA).2,
                            vx := (dotNewV2 dotBfix dotA).1,
                            vy := (dotNewV2 dotBfix dotA).2 })) ∧
    (collideWithDot dotA dotB =
      ({ dotA with x := dotA.x + (dotMtd dotA dotB).1 * 1 / 2,
                   y := dotA.y + (dotMtd dotA dotB).2 * 1 / 2,
                   vx := (dotNewV1 dotA dotB).1, vy := (dotNewV1 dotA dotB).2 },
       { dotB with x := dotB.x - (dotMtd dotA dotB).1 * 1 / 2,
                   y := dotB.y - (dotMtd dotA dotB).2 * 1 / 2,
                   vx := (dotNewV2 dotA dotB).1, vy := (dotNewV2 dotA dotB).2 })) ∧
    collideWithDot dotA dotA = (dotA, dotA) :=
  ⟨collideWithDot_mode_asymmetry.1 dotA dotBfix (by decide) rfl rfl
      (by rw [dotDist_A_Bfix]; norm_num [dotA]),
    collideWithDot_mode_asymmetry.2.1 dotBfix dotA (by decide) rfl rfl
      (by rw [dotDist_Bfix_A]; norm_num [dotBfix]),
    collideWithDot_mode_asymmetry.2.2.1 dotA dotB (by decide) rfl
      (by rw [dotDist_A_B]; norm_num [dotA]),
    collideWithDot_mode_asymmetry.2.2.2 dotA⟩

/-! ## Rejection-sampling respawn (AbstractMotionWorld.freeSpot and
AbstractMotionWorld.getFreeSpotInPatch) -/

/-- Modelled from the spec: the euclidean-distance helper
(utils/EuclideanDistance.ts is not under src/); the spec's respawn strategy
compares the euclidean distance of the candidate point to every live dot. -/
def euclideanDistance (x1 y1 x2 y2 : ℚ) : ℚ :=
  sqrtQ ((x1 - x2) ^ 2 + (y1 - y2) ^ 2)

/-- Embedding of `AbstractMotionWorld.freeSpot` (AbstractMotionWorld.ts lines
594-601): a candidate point is free when its distance to every dot of the
population exceeds `dotSpacing + 2 * dotRadius`. -/
def freeSpot (dotSpacing dotRadius x y : ℚ) (dots : List Dot) : Bool :=
  dots.all fun d =>
    !(decide (euclideanDistance x y d.x d.y ≤ dotSpacing + 2 * dotRadius))

/-- Embedding of `AbstractMotionWorld.getFreeSpotInPatch` (AbstractMotionWorld.ts
lines 611-618).  The source is an unconditional `do … while (!freeSpot)` loop;
here the loop is unrolled against an explicit attempt budget `fuel` and a
random stream `rnd` (two fresh draws per attempt, starting at index `k`):
`some p` means the loop exited with point `p` within the budget, `none` means
the loop was still running when the budget ran out.  The source has no budget:
`none` for every `fuel` exhibits non-termination. -/
def getFreeSpotFuel (dotSpacing dotRadius minX minY maxX maxY : ℚ)
    (dots : List Dot) (rnd : ℕ → ℚ) : ℕ → ℕ → Option (ℚ × ℚ)
  | 0, _ => none
  | fuel + 1, k =>
    let x := rnd k * (maxX - minX) + minX
    let y := rnd (k + 1) * (maxY - minY) + minY
    if freeSpot dotSpacing dotRadius x y dots then some (x, y)
    else getFreeSpotFuel dotSpacing dotRadius minX minY maxX maxY dots rnd fuel (k + 2)

/-- Claim C7: the rejection-sampling respawn has NO bounded number of attempts
and no overcrowded-patch error path.  On the degenerate (overcrowded) patch
`[0,0] × [0,0]` holding a single dot at the origin, every attempt draws
exactly (0, 0), which is never free (distance 0 ≤ spacing + 2 * radius), so
for EVERY attempt budget and EVERY random stream the loop is still running:
the source's `do/while` spins forever instead of surfacing an error. -/
theorem getFreeSpotInPatch_no_bound :
    ∀ (fuel k : ℕ) (rnd : ℕ → ℚ),
      getFreeSpotFuel 2 5 0 0 0 0
        [⟨0, 0, 0, 0, 0, 5, true, Dir.RANDOM, 0, 100, 100⟩] rnd fuel k = none := by
  intro fuel
  induction fuel with
  | zero => intro k rnd; rfl
  | succ n ih =>
    intro k rnd
    have h0 : sqrtQ (0 : ℚ) = 0 := by
      rw [show (0 : ℚ) = 0 * 0 by ring, sqrtQ_sq]; norm_num
    have hfs : ∀ a b : ℚ, freeSpot 2 5 (a * (0 - 0) + 0) (b * (0 - 0) + 0)
        [⟨0, 0, 0, 0, 0, 5, true, Dir.RANDOM, 0, 100, 100⟩] = false := by
      intro a b
      simp only [freeSpot, euclideanDistance, List.all_cons, List.all_nil,
        Bool.and_true]
      norm_num [h0]
    simp only [getFreeSpotFuel, hfs, Bool.false_eq_true, if_false]
    exact ih (k + 2) rnd

/-! ## Jittered spawn lattice (MotionTutorialTrialWorld.createGridPoints) -/

/-- JavaScript `%` on numbers: the remainder with the sign of the dividend,
`a - b * trunc (a / b)`.  With a nonnegative dividend and positive divisor
(the only case exercised here) this is the usual nonnegative remainder. -/
def jsMod (a b : ℚ) : ℚ :=
  if 0 ≤ a / b then a - b * (⌊a / b⌋ : ℚ) else a - b * (⌈a / b⌉ : ℚ)

/-- Lattice span on one axis: `Math.floor(max - min)` (lines 324-325). -/
def gridWidth (lo hi : ℚ) : ℚ := (⌊hi - lo⌋ : ℚ)

/-- Lattice offset on one axis: `width % spacing` (lines 327-328). -/
def gridOffset (lo hi spacing : ℚ) : ℚ := jsMod (gridWidth lo hi) spacing

/-- Number of lattice lines on one axis:
`Math.floor((width - offset) / spacing)` (lines 330-331). -/
def gridLines (lo hi spacing : ℚ) : ℤ :=
  ⌊(gridWidth lo hi - gridOffset lo hi spacing) / spacing⌋

/-- Rational stand-in for `Math.sin` at the natural-number lattice indices:
the value of sin k to four decimal places for k ≤ 6 and 0 beyond.  Only
indices below the line counts of the lattices instantiated in the theorems
below are ever used, and those theorems depend only on the sign and coarse
magnitude of these values, which the 10⁻⁴ approximation error cannot
affect. -/
def sinQ : ℕ → ℚ
  | 0 => 0
  | 1 => 8415 / 10000
  | 2 => 9093 / 10000
  | 3 => 1411 / 10000
  | 4 => -7568 / 10000
  | 5 => -9589 / 10000
  | 6 => -2794 / 10000
  | _ => 0

/-- Embedding of `MotionTutorialTrialWorld.createGridPoints`
(MotionTutorialTrialWorld.ts lines 320-358).  `none` models the thrown
`Error` (the lattice check `xLines * yLines < numberOfDots` fires before any
point is generated); otherwise the nested loops emit the sine-jittered
lattice points, dropping every jittered point that falls outside the
offset-inset rectangle. -/
def createGridPoints (numberOfDots : ℕ) (xMin xMax yMin yMax spacing : ℚ) :
    Option (List (ℚ × ℚ)) :=
  let xOffset := gridOffset xMin xMax spacing
  let yOffset := gridOffset yMin yMax spacing
  let xLines := gridLines xMin xMax spacing
  let yLines := gridLines yMin yMax spacing
  if xLines * yLines < (numberOfDots : ℤ) then none
  else
    let startX := xMin + xOffset / 2
    let startY := yMin + yOffset / 2
    some ((List.range xLines.toNat).flatMap fun i =>
      (List.range yLines.toNat).filterMap fun j =>
        let x := startX + sinQ j + (i : ℚ) * spacing
        let y := startY + sinQ i + (j : ℚ) * spacing
        if x ≤ xMax - xOffset / 2 ∧ xMin + xOffset / 2 ≤ x ∧
            y ≤ yMax - yOffset / 2 ∧ yMin + yOffset / 2 ≤ y
        then some (x, y) else none)

/-- Claim C8 (amended): `createGridPoints` fails (throws) EXACTLY when the
pre-jitter lattice size `xLines * yLines` is below `numberOfDots`; on success
it returns at most `xLines * yLines` points, each inside the offset-inset
spawn rectangle (hence inside the given bounds) — but possibly FEWER than
`numberOfDots`, because jittered points falling outside the inset rectangle
are dropped without replacement (see `createGridPoints_undercount_cx`). -/
theorem createGridPoints_check_and_bounds :
    ∀ (n : ℕ) (xMin xMax yMin yMax spacing : ℚ),
      (createGridPoints n xMin xMax yMin yMax spacing = none ↔
        gridLines xMin xMax spacing * gridLines yMin yMax spacing < (n : ℤ)) ∧
      (∀ L, createGridPoints n xMin xMax yMin yMax spacing = some L →
        L.length ≤ (gridLines xMin xMax spacing).toNat *
          (gridLines yMin yMax spacing).toNat ∧
        ∀ p ∈ L,
          xMin + gridOffset xMin xMax spacing / 2 ≤ p.1 ∧
          p.1 ≤ xMax - gridOffset xMin xMax spacing / 2 ∧
          yMin + gridOffset yMin yMax spacing / 2 ≤ p.2 ∧
          p.2 ≤ yMax - gridOffset yMin yMax spacing / 2) := by
  intro n xMin xMax yMin yMax spacing
  constructor
  · simp only [createGridPoints]
    split_ifs with h <;> simp [h]
  · intro L hL
    simp only [createGridPoints] at hL
    split_ifs at hL with h
    obtain rfl := Option.some.inj hL
    constructor
    · rw [List.length_flatMap]
      refine le_trans
        (List.sum_le_card_nsmul _ ((gridLines yMin yMax spacing).toNat) ?_) ?_
      · intro m hm
        rw [List.mem_map] at hm
        obtain ⟨i, _, hmi⟩ := hm
        rw [← hmi]
        simp only [Function.comp]
        exact le_trans (List.length_filterMap_le _ _)
          (le_of_eq (List.length_range _))
      · rw [List.length_map, List.length_range, smul_eq_mul]
    · intro p hp
      rw [List.mem_flatMap] at hp
      obtain ⟨i, _, hpi⟩ := hp
      rw [List.mem_filterMap] at hpi
      obtain ⟨j, _, hij⟩ := hpi
      split_ifs at hij with hcond
      obtain rfl := Option.some.inj hij
      exact ⟨hcond.2.1, hcond.1, hcond.2.2.2, hcond.2.2.1⟩

/-- Lattice offset for the span [0, 51] with spacing 10 is 51 mod 10 = 1. -/
theorem gridOffset_51 : gridOffset 0 51 10 = 1 := by
  simp only [gridOffset, gridWidth, jsMod]
  norm_num

/-- Lattice line count for the span [0, 51] with spacing 10 is 5. -/
theorem gridLines_51 : gridLines 0 51 10 = 5 := by
  simp only [gridLines, gridOffset_51, gridWidth]
  norm_num

/-- Claim C8 counterexample: the claim says that when `createGridPoints` does
not throw it returns at least `numberOfDots` usable points.  With
`numberOfDots = 25` on the patch [0,51] × [0,51] with spacing 10 the check
passes (`xLines * yLines = 25`), yet only 23 points are returned: the jitter
`sin 4 ≈ -0.757` pushes the lattice points (i, j) = (0, 4) and (4, 0) below
the inset lower bounds, and they are dropped without replacement (the same
two points are dropped under the exact `Math.sin`). -/
theorem createGridPoints_undercount_cx :
    Option.map List.length (createGridPoints 25 0 51 0 51 10) = some 23 ∧
    23 < 25 := by
  refine ⟨?_, by norm_num⟩
  have hr : List.range 5 = [0, 1, 2, 3, 4] := by decide
  simp only [createGridPoints, gridOffset_51, gridLines_51]
  norm_num
  rw [show ((5 : ℤ).toNat) = 5 from rfl, hr]
  simp only [List.flatMap_cons, List.flatMap_nil, List.filterMap_cons,
    List.filterMap_nil]
  norm_num [sinQ]

/-- Lattice offset for the span [0, 12] with spacing 10 is 2. -/
theorem gridOffset_12 : gridOffset 0 12 10 = 2 := by
  simp only [gridOffset, gridWidth, jsMod]
  norm_num

/-- Lattice line count for the span [0, 12] with spacing 10 is 1. -/
theorem gridLines_12 : gridLines 0 12 10 = 1 := by
  simp only [gridLines, gridOffset_12, gridWidth]
  norm_num

/-- Witness for `createGridPoints_check_and_bounds`: on the patch
[0,12] × [0,12] with spacing 10 (a 1 × 1 lattice producing the single point
(1,1)), requesting 2 dots fails and requesting 1 dot succeeds with the
returned point inside the inset bounds. -/
theorem createGridPoints_check_and_bounds_witness :
    createGridPoints 2 0 12 0 12 10 = none ∧
    [((1 : ℚ), (1 : ℚ))].length ≤
      (gridLines 0 12 10).toNat * (gridLines 0 12 10).toNat ∧
    ((0 : ℚ) + gridOffset 0 12 10 / 2 ≤ ((1 : ℚ), (1 : ℚ)).1 ∧
      ((1 : ℚ), (1 : ℚ)).1 ≤ 12 - gridOffset 0 12 10 / 2 ∧
      (0 : ℚ) + gridOffset 0 12 10 / 2 ≤ ((1 : ℚ), (1 : ℚ)).2 ∧
      ((1 : ℚ), (1 : ℚ)).2 ≤ 12 - gridOffset 0 12 10 / 2) := by
  have hsome : createGridPoints 1 0 12 0 12 10 = some [(1, 1)] := by
    have hr : List.range 1 = [0] := by decide
    simp only [createGridPoints, gridOffset_12, gridLines_12]
    norm_num
    rw [hr]
    simp only [List.flatMap_cons, List.flatMap_nil, List.filterMap_cons,
      List.filterMap_nil]
    norm_num [sinQ]
  have h2 := (createGridPoints_check_and_bounds 1 0 12 0 12 10).2 [(1, 1)] hsome
  exact ⟨(createGridPoints_check_and_bounds 2 0 12 0 12 10).1.mpr
      (by rw [gridLines_12]; norm_num),
    h2.1, h2.2 (1, 1) (by simp)⟩

/-! ## Per-frame world update (AbstractMotionWorld.updateDots, both variants) -/

/-- Modelled from the spec: the `WorldState` enumeration (utils/Enums.ts is
not under src/); members as used by the motion and form worlds. -/
inductive WorldState
  | RUNNING
  | PAUSED
  | TRIAL_CORRECT
  | TRIAL_INCORRECT
  | PATCH_SELECTED
  | FINISHED
deriving DecidableEq, Repr

/-- Dot heading-flip period (Dot.ts line 42, constant 30). -/
def horMaxTime : ℚ := 30

/-- Dot random-turn period (Dot.ts line 43, constant 30). -/
def ranMaxTime : ℚ := 30

/-- Dot speed (Dot.ts line 44, constant 0.2). -/
def dotSpeed : ℚ := 1/5

/-- Modelled from the spec: `rotateVector` (utils/RotateVector.ts is not under
src/) is a standard 2D rotation of the velocity vector; the cosine/sine pair
of the rotation angle is passed explicitly, so a rotation by 180 degrees uses
the exact pair (-1, 0) and a random rotation uses an oracle-supplied pair. -/
def rotateVector (v : ℚ × ℚ) (cs : ℚ × ℚ) : ℚ × ℚ :=
  (v.1 * cs.1 - v.2 * cs.2, v.1 * cs.2 + v.2 * cs.1)

/-- Embedding of `Dot.update` (Dot.ts lines 62-82): advance the heading timer,
run down the alive timer, flip a Fixed dot's velocity past the horizontal
period, rotate a Random dot's velocity by a random angle (cosine/sine pair
`cs`) past the random period, then advance the position by
`delta * velocity`. -/
def dotUpdate (cs : ℚ × ℚ) (delta : ℚ) (d : Dot) : Dot :=
  let d0 : Dot := { d with directionTimer := d.directionTimer + delta,
                           aliveTimer := d.aliveTimer - delta }
  let d1 : Dot :=
    if d0.isRandom = false ∧ horMaxTime ≤ d0.directionTimer then
      { d0 with vx := (rotateVector (d0.vx, d0.vy) (-1, 0)).1,
                vy := (rotateVector (d0.vx, d0.vy) (-1, 0)).2,
                directionTimer := 0 }
    else d0
  let d2 : Dot :=
    if d1.isRandom = true ∧ ranMaxTime ≤ d1.directionTimer then
      { d1 with vx := (rotateVector (d1.vx, d1.vy) cs).1,
                vy := (rotateVector (d1.vx, d1.vy) cs).2,
                directionTimer := 0 }
    else d1
  { d2 with x := d2.x + delta * d2.vx, y := d2.y + delta * d2.vy }

/-- Modelled from the spec: `Dot.resetAliveTimer` is absent from src/; spec
section 4.5 resets the timers on respawn (alive timer back to the per-dot
maximum lifetime, heading timer restarted). -/
def resetAliveTimer (d : Dot) : Dot :=
  { d with aliveTimer := d.maxAliveTimer, directionTimer := 0 }

/-- Modelled from the spec: `Dot.setPosition` is absent from src/; relocates
the dot. -/
def setPosition (px py : ℚ) (d : Dot) : Dot := { d with x := px, y := py }

/-- Oracle for the randomness consumed during one `updateDots` call on one
side: `rot i` is the cosine/sine pair of dot i's random heading rotation (if
one is drawn), `rnd k` the uniform draws of `getRandomPosition` (two per
respawning dot), and `rnd2 i` the uniform draw stream of dot i's
`getFreeSpotInPatch` loop. -/
structure SideEnv where
  rot : ℕ → ℚ × ℚ
  rnd : ℕ → ℚ
  rnd2 : ℕ → ℕ → ℚ

/-- State of an `AbstractMotionWorld` as far as `updateDots` is concerned:
world-state flag, run timers, the two dot populations, the quadtree contents
(modelled from the spec, section 4.1, as the list of inserted dot indices —
QuadTree.ts is absent from src/; retrieval returns every inserted dot, the
conservative superset the spec allows), and the patch bounds and dot
geometry settings. -/
structure MotionWorld where
  currentState : WorldState
  runTime : ℚ
  maxRunTime : ℚ
  dotsLeft : List Dot
  dotsRight : List Dot
  quadTree : List ℕ
  leftMinX : ℚ
  leftMaxX : ℚ
  rightMinX : ℚ
  rightMaxX : ℚ
  patchMinY : ℚ
  patchMaxY : ℚ
  dotRadius : ℚ
  dotSpacing : ℚ

/-- One wall check of the per-dot loop: dot i, when in Random mode, is
wall-checked in place (`checkWallCollision*Patch` mutates the dot through its
reference; the embedding writes the result back at index i). -/
def wallCheckAt (wc : Dot → Dot) (arr : List Dot) (i : ℕ) : List Dot :=
  match arr[i]? with
  | some d => if d.isRandom then arr.set i (wc d) else arr
  | none => arr

/-- One `collideWithDot` call between dot i (`this`) and dot j (a retrieved
candidate): both dots are read from the current array and both results are
written back, modelling the reference aliasing of the source. -/
def collideAt (arr : List Dot) (i j : ℕ) : List Dot :=
  match arr[i]?, arr[j]? with
  | some di, some dj =>
    let p := collideWithDot di dj
    (arr.set i p.1).set j p.2
  | _, _ => arr

/-- The inner forEach over the retrieved collision candidates; the quadtree
model returns every inserted index. -/
def collideLoop (qt : List ℕ) (arr : List Dot) (i : ℕ) : List Dot :=
  qt.foldl (fun a j => collideAt a i j) arr

/-- Collision loop of the first `updateDots` variant (lines 161-173): each
dot is wall-checked (when Random) and then collided against the retrieved
candidates, one dot at a time. -/
def collisionPhaseV1 (wc : Dot → Dot) (qt : List ℕ) (arr : List Dot) : List Dot :=
  (List.range arr.length).foldl (fun a i => collideLoop qt (wallCheckAt wc a i) i) arr

/-- Insertion loop of the second `updateDots` variant (lines 475-481): all
wall checks happen while inserting into the quadtree, before any dot-dot
collision is resolved. -/
def wallPhase (wc : Dot → Dot) (arr : List Dot) : List Dot :=
  (List.range arr.length).foldl (wallCheckAt wc) arr

/-- Collision loop of the second `updateDots` variant (lines 484-491). -/
def collisionPhaseV2 (qt : List ℕ) (arr : List Dot) : List Dot :=
  (List.range arr.length).foldl (fun a i => collideLoop qt a i) arr

/-- Embedding of `AbstractMotionWorld.getRandomPosition` (lines 274-279):
`r1`, `r2` are the two `rando()` draws. -/
def getRandomPosition (r1 r2 xMin yMin xMax yMax : ℚ) : ℚ × ℚ :=
  (r1 * (xMax - xMin) + xMin, r2 * (yMax - yMin) + yMin)

/-- Update-and-respawn phase of the first variant (lines 176-189): each dot
advances by `delta`; an expired dot has its timers reset and is relocated to
a fresh random position inside the patch (dot i uses draws 2i and 2i+1). -/
def updateRespawnV1 (env : SideEnv) (delta xMin yMin xMax yMax : ℚ)
    (arr : List Dot) : List Dot :=
  arr.mapIdx fun i d =>
    let d1 := dotUpdate (env.rot i) delta d
    if d1.aliveTimer ≤ 0 then
      let p := getRandomPosition (env.rnd (2*i)) (env.rnd (2*i+1)) xMin yMin xMax yMax
      setPosition p.1 p.2 (resetAliveTimer d1)
    else d1

/-- Update-and-respawn phase of the second variant (lines 494-508): like the
first, but the new position comes from the rejection-sampling loop
`getFreeSpotInPatch` run against the live population (which at that moment
already holds the updated, timer-reset dot itself); `none` propagates a
respawn loop that found no free spot within the budget. -/
def updateRespawnV2 (env : SideEnv) (fuel : ℕ)
    (delta spacing radius xMin yMin xMax yMax : ℚ)
    (arr0 : List Dot) : Option (List Dot) :=
  (List.range arr0.length).foldlM (fun arr i =>
    match arr[i]? with
    | none => some arr
    | some d =>
      let d1 := dotUpdate (env.rot i) delta d
      if d1.aliveTimer ≤ 0 then
        let d2 := resetAliveTimer d1
        let arr2 := arr.set i d2
        match getFreeSpotFuel spacing radius xMin yMin xMax yMax arr2
            (env.rnd2 i) fuel 0 with
        | none => none
        | some p => some (arr2.set i (setPosition p.1 p.2 d2))
      else some (arr.set i d1)) arr0

/-- Embedding of the first variant of `AbstractMotionWorld.updateDots`
(AbstractMotionWorld.ts lines 142-227): accumulate the run time and pause
immediately once it reaches the maximum; otherwise, per side: rebuild the
quadtree (clear + insert every dot), run the wall/collision loop, then the
kinematics update with random-position respawn. -/
def updateDotsV1 (envL envR : SideEnv) (delta : ℚ) (w : MotionWorld) :
    MotionWorld :=
  let rt := w.runTime + delta
  if w.maxRunTime ≤ rt then
    { w with runTime := rt, currentState := WorldState.PAUSED }
  else
    let qtL := List.range w.dotsLeft.length
    let wcL := checkWallCollisionLeftPatch w.leftMinX w.leftMaxX w.patchMinY w.patchMaxY
    let left1 := collisionPhaseV1 wcL qtL w.dotsLeft
    let left2 := updateRespawnV1 envL delta (w.leftMinX + w.dotRadius)
      (w.patchMinY + w.dotRadius) (w.leftMaxX - w.dotRadius)
      (w.patchMaxY - w.dotRadius) left1
    let qtR := List.range w.dotsRight.length
    let wcR := checkWallCollisionRightPatch w.rightMinX w.rightMaxX w.patchMinY w.patchMaxY
    let right1 := collisionPhaseV1 wcR qtR w.dotsRight
    let right2 := updateRespawnV1 envR delta (w.rightMinX + w.dotRadius)
      (w.patchMinY + w.dotRadius) (w.rightMaxX - w.dotRadius)
      (w.patchMaxY - w.dotRadius) right1
    { w with runTime := rt, dotsLeft := left2, dotsRight := right2, quadTree := qtR }

/-- Embedding of the second variant of `updateDots` (AbstractMotionWorld.ts
lines 460-548): same early pause check; wall checks run during quadtree
insertion, collisions afterwards, and expired dots respawn through
`getFreeSpotInPatch` (an unbounded loop in the source, budgeted by `fuel`
here — `none` models a frame that never finishes). -/
def updateDotsV2 (envL envR : SideEnv) (fuel : ℕ) (delta : ℚ)
    (w : MotionWorld) : Option MotionWorld :=
  let rt := w.runTime + delta
  if w.maxRunTime ≤ rt then
    some { w with runTime := rt, currentState := WorldState.PAUSED }
  else
    let qtL := List.range w.dotsLeft.length
    let wcL := checkWallCollisionLeftPatch w.leftMinX w.leftMaxX w.patchMinY w.patchMaxY
    let left1 := collisionPhaseV2 qtL (wallPhase wcL w.dotsLeft)
    match updateRespawnV2 envL fuel delta w.dotSpacing w.dotRadius
        (w.leftMinX + w.dotRadius) (w.patchMinY + w.dotRadius)
        (w.leftMaxX - w.dotRadius) (w.patchMaxY - w.dotRadius) left1 with
    | none => none
    | some left2 =>
      let qtR := List.range w.dotsRight.length
      let wcR := checkWallCollisionRightPatch w.rightMinX w.rightMaxX w.patchMinY w.patchMaxY
      let right1 := collisionPhaseV2 qtR (wallPhase wcR w.dotsRight)
      match updateRespawnV2 envR fuel delta w.dotSpacing w.dotRadius
          (w.rightMinX + w.dotRadius) (w.patchMinY + w.dotRadius)
          (w.rightMaxX - w.dotRadius) (w.patchMaxY - w.dotRadius) right1 with
      | none => none
      | some right2 =>
        some { w with runTime := rt, dotsLeft := left2, dotsRight := right2,
                      quadTree := qtR }

/-- Claim C9: whenever the accumulated run time plus `delta` reaches the
configured maximum run time, `updateDots` (in both variants) sets the world
state to PAUSED and returns immediately: apart from the run-time accumulator
nothing changes — every dot's position, velocity and timers in both
populations are untouched, and the spatial index is neither cleared nor
rebuilt. -/
theorem updateDots_pause_early_return :
    ∀ (envL envR : SideEnv) (fuel : ℕ) (delta : ℚ) (w : MotionWorld),
      w.maxRunTime ≤ w.runTime + delta →
      updateDotsV1 envL envR delta w =
        { w with runTime := w.runTime + delta,
                 currentState := WorldState.PAUSED } ∧
      updateDotsV2 envL envR fuel delta w =
        some { w with runTime := w.runTime + delta,
                      currentState := WorldState.PAUSED } := by
  intro envL envR fuel delta w h
  constructor
  · simp only [updateDotsV1]
    rw [if_pos h]
  · simp only [updateDotsV2]
    rw [if_pos h]

/-- Constant randomness oracle for the early-return witness (its values are
never consumed on the early-return path). -/
def sideEnv0 : SideEnv := ⟨fun _ => (1, 0), fun _ => 0, fun _ _ => 0⟩

/-- Concrete world for the early-return witness: running, 10 ms accumulated
of a 12 ms budget, with empty populations. -/
def world0 : MotionWorld :=
  ⟨WorldState.RUNNING, 10, 12, [], [], [], 0, 100, 110, 210, 0, 100, 5, 2⟩

/-- Witness for `updateDots_pause_early_return`: a 3 ms frame pushes the
10/12 ms world over its budget; both variants pause and return the world
otherwise unchanged. -/
theorem updateDots_pause_early_return_witness :
    updateDotsV1 sideEnv0 sideEnv0 3 world0 =
      { world0 with runTime := world0.runTime + 3,
                    currentState := WorldState.PAUSED } ∧
    updateDotsV2 sideEnv0 sideEnv0 7 3 world0 =
      some { world0 with runTime := world0.runTime + 3,
                         currentState := WorldState.PAUSED } :=
  updateDots_pause_early_return sideEnv0 sideEnv0 7 3 world0
    (by norm_num [world0])

/-! ## Trial population setup (MotionTutorialTrialWorld.createDots and
MotionTutorialTrialWorld.createNewTrial) -/

/-- Configuration consumed by the trial worlds (from the Settings singleton,
which is out of scope): population size, respawn-stagger quota
(`dotsToKill`), coherence percentage, dot radius and base lifetime. -/
structure TrialConfig where
  numberOfDots : ℕ
  dotsToKill : ℚ
  coherencePercent : ℚ
  dotRadius : ℚ
  dotMaxAliveTime : ℚ

/-- Oracle for the randomness consumed by `createDots` / `createNewTrial`:
`sideB` is the `rando(1)` draw choosing the coherent patch (truthy picks
`Direction[0]` = LEFT), `dirB` the draw choosing the coherent direction
(truthy picks RIGHT); `posL` / `posR` are the shuffled grid-point streams and
`csL` / `csR`, `rtL` / `rtR` the rotation cosine/sine pairs and timer draws
consumed by RANDOM-mode dots. -/
structure TrialEnv where
  sideB : Bool
  dirB : Bool
  posL : ℕ → ℚ × ℚ
  posR : ℕ → ℚ × ℚ
  csL : ℕ → ℚ × ℚ
  csR : ℕ → ℚ × ℚ
  rtL : ℕ → ℚ
  rtR : ℕ → ℚ

/-- The coherent patch side chosen by `rando(1) ? Direction[0] : Direction[1]`. -/
def coherentSideOf (b : Bool) : Dir := if b then Dir.LEFT else Dir.RIGHT

/-- The coherent direction chosen by `rando(1) ? Direction.RIGHT : Direction.LEFT`. -/
def coherentDirOf (b : Bool) : Dir := if b then Dir.RIGHT else Dir.LEFT

/-- Embedding of the `Dot` constructor (Dot.ts lines 21-60): initial velocity
of magnitude `dotSpeed` pointing left for LEFT and right otherwise, rotated
by a random angle for RANDOM dots, whose heading timer starts at a random
fraction of `ranMaxTime`; `isRandom` is set exactly for RANDOM dots.  `idv`
models the fresh object reference. -/
def mkDot (idv : ℕ) (px py radius : ℚ) (direction : Dir) (aliveTime : ℚ)
    (cs : ℚ × ℚ) (rt : ℚ) : Dot :=
  let v : ℚ × ℚ := if direction = Dir.LEFT then (-dotSpeed, 0) else (dotSpeed, 0)
  if direction = Dir.RANDOM then
    { id := idv, x := px, y := py, vx := (rotateVector v cs).1,
      vy := (rotateVector v cs).2, radius := radius, isRandom := true,
      direction := direction, directionTimer := rt * ranMaxTime,
      aliveTimer := aliveTime, maxAliveTimer := aliveTime }
  else
    { id := idv, x := px, y := py, vx := v.1, vy := v.2, radius := radius,
      isRandom := false, direction := direction, directionTimer := 0,
      aliveTimer := aliveTime, maxAliveTimer := aliveTime }

/-- A constructed dot is in Random mode exactly when its direction is RANDOM. -/
theorem mkDot_isRandom (idv : ℕ) (px py r : ℚ) (dir : Dir) (a : ℚ)
    (cs : ℚ × ℚ) (rt : ℚ) :
    (mkDot idv px py r dir a cs rt).isRandom = decide (dir = Dir.RANDOM) := by
  simp only [mkDot]
  split_ifs with h <;> simp [h]

/-- Loop body of `MotionTutorialTrialWorld.createDots` (lines 164-209),
recursing on the remaining iteration count: per iteration the stagger
multiplier advances when `i = dotsToKill * multiplier`, the current coherent
percentage is computed once (and reused by the right-patch branch, as in the
source), and each patch receives either a coherent-direction dot (only while
on the coherent side below the target percentage) or a RANDOM dot. -/
def createDotsLoop (cfg : TrialConfig) (e : TrialEnv) (side cohDir : Dir) :
    ℕ → ℕ → ℕ → ℕ → List Dot × List Dot
  | 0, _, _, _ => ([], [])
  | rem + 1, i, mult, cnt =>
    let mult1 := if (i : ℚ) = cfg.dotsToKill * (mult : ℚ) then mult + 1 else mult
    let pct : ℚ := ((cnt : ℚ) / (cfg.numberOfDots : ℚ)) * 100
    let ldir := if side = Dir.LEFT ∧ pct < cfg.coherencePercent then cohDir
      else Dir.RANDOM
    let cnt1 := if side = Dir.LEFT ∧ pct < cfg.coherencePercent then cnt + 1
      else cnt
    let dL := mkDot (2 * i) (e.posL i).1 (e.posL i).2 cfg.dotRadius ldir
      (cfg.dotMaxAliveTime * (mult1 : ℚ)) (e.csL i) (e.rtL i)
    let rdir := if side = Dir.RIGHT ∧ pct < cfg.coherencePercent then cohDir
      else Dir.RANDOM
    let cnt2 := if side = Dir.RIGHT ∧ pct < cfg.coherencePercent then cnt1 + 1
      else cnt1
    let dR := mkDot (2 * i + 1) (e.posR i).1 (e.posR i).2 cfg.dotRadius rdir
      (cfg.dotMaxAliveTime * (mult1 : ℚ)) (e.csR i) (e.rtR i)
    let rest := createDotsLoop cfg e side cohDir rem (i + 1) mult1 cnt2
    (dL :: rest.1, dR :: rest.2)

/-- Embedding of `MotionTutorialTrialWorld.createDots` (lines 147-210):
returns the randomly chosen coherent patch side together with the two freshly
instantiated populations. -/
def createDots (cfg : TrialConfig) (e : TrialEnv) : Dir × List Dot × List Dot :=
  (coherentSideOf e.sideB,
   createDotsLoop cfg e (coherentSideOf e.sideB) (coherentDirOf e.dirB)
     cfg.numberOfDots 0 1 0)

/-- Modelled from the spec: `Dot.setDirection` is absent from src/; per the
data model a dot's motion mode is Random exactly when its direction is
RANDOM. -/
def setDirection (dir : Dir) (d : Dot) : Dot :=
  { d with direction := dir, isRandom := decide (dir = Dir.RANDOM) }

/-- Modelled from the spec: `Dot.setTimers` is absent from src/; a new trial
resets the lifetime timers to the supplied staggered maximum and restarts the
heading timer. -/
def setTimers (t : ℚ) (d : Dot) : Dot :=
  { d with aliveTimer := t, maxAliveTimer := t, directionTimer := 0 }

/-- Modelled from the spec: `Dot.resetVelocity` is absent from src/; the
velocity is re-derived from the (new) direction exactly as in the
constructor, with `cs` the random rotation pair for RANDOM dots. -/
def resetVelocity (cs : ℚ × ℚ) (d : Dot) : Dot :=
  let v : ℚ × ℚ := if d.direction = Dir.LEFT then (-dotSpeed, 0) else (dotSpeed, 0)
  if d.direction = Dir.RANDOM then
    { d with vx := (rotateVector v cs).1, vy := (rotateVector v cs).2 }
  else
    { d with vx := v.1, vy := v.2 }

/-- The per-dot reassignment of `createNewTrial` (lines 248-251 and 254-257):
set position, direction, timers, and velocity, in source order. -/
def trialUpdateDot (pos : ℚ × ℚ) (dir : Dir) (t : ℚ) (cs : ℚ × ℚ) (d : Dot) : Dot :=
  resetVelocity cs (setTimers t (setDirection dir (setPosition pos.1 pos.2 d)))

/-- A reassigned dot is in Random mode exactly when its new direction is
RANDOM. -/
theorem trialUpdateDot_isRandom (pos : ℚ × ℚ) (dir : Dir) (t : ℚ)
    (cs : ℚ × ℚ) (d : Dot) :
    (trialUpdateDot pos dir t cs d).isRandom = decide (dir = Dir.RANDOM) := by
  simp only [trialUpdateDot, resetVelocity, setTimers, setDirection, setPosition]
  split_ifs <;> rfl

/-- Loop body of `MotionTutorialTrialWorld.createNewTrial` (lines 234-277),
walking the two existing populations in lockstep (the source indexes both
arrays for `i < numberOfDots`; the embedding recurses on the paired lists,
which coincides when both populations have length `numberOfDots`). -/
def createNewTrialLoop (cfg : TrialConfig) (e : TrialEnv) (side cohDir : Dir) :
    List Dot → List Dot → ℕ → ℕ → ℕ → List Dot × List Dot
  | d1 :: tl, d2 :: tr, i, mult, cnt =>
    let mult1 := if (i : ℚ) = cfg.dotsToKill * (mult : ℚ) then mult + 1 else mult
    let pct : ℚ := ((cnt : ℚ) / (cfg.numberOfDots : ℚ)) * 100
    let ldir := if side = Dir.LEFT ∧ pct < cfg.coherencePercent then cohDir
      else Dir.RANDOM
    let cnt1 := if side = Dir.LEFT ∧ pct < cfg.coherencePercent then cnt + 1
      else cnt
    let uL := trialUpdateDot (e.posL i) ldir
      (cfg.dotMaxAliveTime * (mult1 : ℚ)) (e.csL i) d1
    let rdir := if side = Dir.RIGHT ∧ pct < cfg.coherencePercent then cohDir
      else Dir.RANDOM
    let cnt2 := if side = Dir.RIGHT ∧ pct < cfg.coherencePercent then cnt1 + 1
      else cnt1
    let uR := trialUpdateDot (e.posR i) rdir
      (cfg.dotMaxAliveTime * (mult1 : ℚ)) (e.csR i) d2
    let rest := createNewTrialLoop cfg e side cohDir tl tr (i + 1) mult1 cnt2
    (uL :: rest.1, uR :: rest.2)
  | _, _, _, _, _ => ([], [])

/-- Embedding of `MotionTutorialTrialWorld.createNewTrial` (lines 217-278):
re-rolls the coherent side and direction and reassigns every dot of the two
existing populations. -/
def createNewTrial (cfg : TrialConfig) (e : TrialEnv) (dl dr : List Dot) :
    Dir × List Dot × List Dot :=
  (coherentSideOf e.sideB,
   createNewTrialLoop cfg e (coherentSideOf e.sideB) (coherentDirOf e.dirB)
     dl dr 0 1 0)

/-- Every right-patch dot created by the loop is Random when the coherent
side is not RIGHT. -/
theorem createDotsLoop_right_random (cfg : TrialConfig) (e : TrialEnv)
    (side cohDir : Dir) (hside : ¬side = Dir.RIGHT) :
    ∀ (rem i mult cnt : ℕ),
      ∀ d ∈ (createDotsLoop cfg e side cohDir rem i mult cnt).2,
        d.isRandom = true := by
  intro rem
  induction rem with
  | zero => intro i mult cnt d hd; simp [createDotsLoop] at hd
  | succ n ih =>
    intro i mult cnt d hd
    simp only [createDotsLoop] at hd
    rcases List.mem_cons.mp hd with rfl | hmem
    · rw [mkDot_isRandom, if_neg (fun hc => hside hc.1)]
      simp
    · exact ih (i + 1) _ _ d hmem

/-- Every left-patch dot created by the loop is Random when the coherent side
is not LEFT. -/
theorem createDotsLoop_left_random (cfg : TrialConfig) (e : TrialEnv)
    (side cohDir : Dir) (hside : ¬side = Dir.LEFT) :
    ∀ (rem i mult cnt : ℕ),
      ∀ d ∈ (createDotsLoop cfg e side cohDir rem i mult cnt).1,
        d.isRandom = true := by
  intro rem
  induction rem with
  | zero => intro i mult cnt d hd; simp [createDotsLoop] at hd
  | succ n ih =>
    intro i mult cnt d hd
    simp only [createDotsLoop] at hd
    rcases List.mem_cons.mp hd with rfl | hmem
    · rw [mkDot_isRandom, if_neg (fun hc => hside hc.1)]
      simp
    · exact ih (i + 1) _ _ d hmem

/-- Every right-patch dot reassigned by the new-trial loop is Random when the
coherent side is not RIGHT. -/
theorem createNewTrialLoop_right_random (cfg : TrialConfig) (e : TrialEnv)
    (side cohDir : Dir) (hside : ¬side = Dir.RIGHT) :
    ∀ (dl dr : List Dot) (i mult cnt : ℕ),
      ∀ d ∈ (createNewTrialLoop cfg e side cohDir dl dr i mult cnt).2,
        d.isRandom = true := by
  intro dl
  induction dl with
  | nil => intro dr i mult cnt d hd; simp [createNewTrialLoop] at hd
  | cons d1 tl ih =>
    intro dr i mult cnt d hd
    cases dr with
    | nil => simp [createNewTrialLoop] at hd
    | cons d2 tr =>
      simp only [createNewTrialLoop] at hd
      rcases List.mem_cons.mp hd with rfl | hmem
      · rw [trialUpdateDot_isRandom, if_neg (fun hc => hside hc.1)]
        simp
      · exact ih tr (i + 1) _ _ d hmem

/-- Every left-patch dot reassigned by the new-trial loop is Random when the
coherent side is not LEFT. -/
theorem createNewTrialLoop_left_random (cfg : TrialConfig) (e : TrialEnv)
    (side cohDir : Dir) (hside : ¬side = Dir.LEFT) :
    ∀ (dl dr : List Dot) (i mult cnt : ℕ),
      ∀ d ∈ (createNewTrialLoop cfg e side cohDir dl dr i mult cnt).1,
        d.isRandom = true := by
  intro dl
  induction dl with
  | nil => intro dr i mult cnt d hd; simp [createNewTrialLoop] at hd
  | cons d1 tl ih =>
    intro dr i mult cnt d hd
    cases dr with
    | nil => simp [createNewTrialLoop] at hd
    | cons d2 tr =>
      simp only [createNewTrialLoop] at hd
      rcases List.mem_cons.mp hd with rfl | hmem
      · rw [trialUpdateDot_isRandom, if_neg (fun hc => hside hc.1)]
        simp
      · exact ih tr (i + 1) _ _ d hmem

/-- Claim C10: after `createDots` and after every `createNewTrial` in
MotionTutorialTrialWorld, every dot of the patch on the non-coherent side is
in Random mode: Fixed-mode (coherent-direction) dots are assigned only to the
patch named by `coherentPatchSide`, and all dots of the other patch move
randomly — for every configuration, every randomness oracle, and (for
`createNewTrial`) every pair of existing populations. -/
theorem nonCoherent_patch_all_random :
    ∀ (cfg : TrialConfig) (e : TrialEnv) (dl dr : List Dot),
      ((createDots cfg e).1 = Dir.LEFT →
        ∀ d ∈ (createDots cfg e).2.2, d.isRandom = true) ∧
      ((createDots cfg e).1 = Dir.RIGHT →
        ∀ d ∈ (createDots cfg e).2.1, d.isRandom = true) ∧
      ((createNewTrial cfg e dl dr).1 = Dir.LEFT →
        ∀ d ∈ (createNewTrial cfg e dl dr).2.2, d.isRandom = true) ∧
      ((createNewTrial cfg e dl dr).1 = Dir.RIGHT →
        ∀ d ∈ (createNewTrial cfg e dl dr).2.1, d.isRandom = true) := by
  intro cfg e dl dr
  refine ⟨fun hL => ?_, fun hR => ?_, fun hL => ?_, fun hR => ?_⟩
  · exact createDotsLoop_right_random cfg e _ _
      (fun hc => by
        have hL2 : coherentSideOf e.sideB = Dir.LEFT := hL
        rw [hL2] at hc; cases hc) cfg.numberOfDots 0 1 0
  · exact createDotsLoop_left_random cfg e _ _
      (fun hc => by
        have hR2 : coherentSideOf e.sideB = Dir.RIGHT := hR
        rw [hR2] at hc; cases hc) cfg.numberOfDots 0 1 0
  · exact createNewTrialLoop_right_random cfg e _ _
      (fun hc => by
        have hL2 : coherentSideOf e.sideB = Dir.LEFT := hL
        rw [hL2] at hc; cases hc) dl dr 0 1 0
  · exact createNewTrialLoop_left_random cfg e _ _
      (fun hc => by
        have hR2 : coherentSideOf e.sideB = Dir.RIGHT := hR
        rw [hR2] at hc; cases hc) dl dr 0 1 0

/-- Concrete two-dot configuration for the trial-setup witness. -/
def trialCfg0 : TrialConfig := ⟨2, 1, 100, 5, 60⟩

/-- Concrete randomness oracle for the trial-setup witness: the coherent
patch is LEFT, the coherent direction RIGHT. -/
def trialEnv0 : TrialEnv :=
  ⟨true, true, fun _ => (1, 1), fun _ => (2, 2), fun _ => (1, 0),
   fun _ => (1, 0), fun _ => 0, fun _ => 0⟩

/-- Witness for `nonCoherent_patch_all_random`: with the coherent patch on
the LEFT, the (nonempty, two-dot) RIGHT population is all-Random, both after
`createDots` and after a subsequent `createNewTrial` on its output. -/
theorem nonCoherent_patch_all_random_witness :
    (createDots trialCfg0 trialEnv0).2.2.length = 2 ∧
    ((createDots trialCfg0 trialEnv0).2.2.all fun d => d.isRandom) = true ∧
    ((createNewTrial trialCfg0 trialEnv0 (createDots trialCfg0 trialEnv0).2.1
      (createDots trialCfg0 trialEnv0).2.2).2.2.all fun d => d.isRandom) = true := by
  have h := nonCoherent_patch_all_random trialCfg0 trialEnv0
    (createDots trialCfg0 trialEnv0).2.1 (createDots trialCfg0 trialEnv0).2.2
  refine ⟨?_, ?_, ?_⟩
  · simp [createDots, createDotsLoop, trialCfg0, coherentSideOf, trialEnv0]
  · exact List.all_eq_true.mpr fun d hd => h.1 rfl d hd
  · exact List.all_eq_true.mpr fun d hd => h.2.2.1 rfl d hd

end MotionSpec
